import Mathlib

/-!
Verification of the HLS session & composition orchestrator of the
LiveStreaming repository (src/server/index.ts).

The TypeScript source is shallowly embedded: the global mutable state of the
orchestrator (`hlsComposition`, `nextPortPair`, the process handle, the legacy
`hlsStreamSource`) becomes an explicit state record, and each of the server's
operations becomes a pure function from state to state together with a list of
externally observable effects (process spawns, termination signals, consumer
pause/resume, playlist writes, timer scheduling).  The single-threaded event
loop of Node.js justifies treating each handler's synchronous section as one
atomic step; OS processes are modelled by a set of live pids together with the
set of pids that have been sent a termination signal, since the code never
awaits process exit before proceeding.
-/

set_option maxRecDepth 4000

namespace LiveStream

/-- Association-list update with the semantics of JavaScript `Map.set` /
re-writing a file: if the key is present its value is replaced in place,
otherwise the binding is appended (insertion order preserved). -/
def mapSet {α : Type} (l : List (String × α)) (id : String) (v : α) : List (String × α) :=
  if l.any (fun e => e.1 == id) then
    l.map (fun e => if e.1 == id then (id, v) else e)
  else
    l ++ [(id, v)]

/-- JavaScript `Map.delete`: remove the binding for `id`. -/
def mapDelete {α : Type} (l : List (String × α)) (id : String) : List (String × α) :=
  l.filter (fun e => e.1 != id)

/-- JavaScript `Map.get`: first binding for `id`, if any. -/
def mapGet {α : Type} (l : List (String × α)) (id : String) : Option α :=
  (l.find? (fun e => e.1 == id)).map (fun e => e.2)

theorem mapSet_cons_ne {α : Type} (e : String × α) (t : List (String × α)) (id : String)
    (v : α) (hbe : (e.1 == id) = false) :
    mapSet (e :: t) id v = e :: mapSet t id v := by
  unfold mapSet
  simp only [List.any_cons, hbe, Bool.false_or]
  by_cases ht : t.any (fun x => x.1 == id)
  · simp only [ht, if_true, List.map_cons]
    rw [if_neg (by simp [hbe])]
  · simp [ht]

theorem mapSet_cons_eq {α : Type} (e : String × α) (t : List (String × α)) (id : String)
    (v : α) (hbe : (e.1 == id) = true) :
    mapSet (e :: t) id v =
      (id, v) :: (t.map (fun x => if x.1 == id then (id, v) else x)) := by
  unfold mapSet
  have h1 : (e :: t).any (fun x => x.1 == id) = true := by simp [List.any_cons, hbe]
  simp only [h1, if_true, List.map_cons]
  rw [if_pos hbe]

theorem mapGet_mapSet {α : Type} (l : List (String × α)) (id : String) (v : α) :
    mapGet (mapSet l id v) id = some v := by
  induction l with
  | nil => simp [mapSet, mapGet, List.find?]
  | cons e t ih =>
    cases hbe : (e.1 == id) with
    | true =>
      rw [mapSet_cons_eq e t id v hbe]
      simp [mapGet, List.find?]
    | false =>
      rw [mapSet_cons_ne e t id v hbe]
      unfold mapGet at ih ⊢
      simp only [List.find?, hbe]
      exact ih

theorem mapGet_mapDelete {α : Type} (l : List (String × α)) (id : String) :
    mapGet (mapDelete l id) id = none := by
  unfold mapDelete mapGet
  induction l with
  | nil => simp
  | cons e t ih =>
    cases hbe : (e.1 == id) with
    | true =>
      have hne : (e.1 != id) = false := by simp [bne, hbe]
      simp only [List.filter_cons, hne, Bool.false_eq_true, if_false]
      exact ih
    | false =>
      have hne : (e.1 != id) = true := by simp [bne, hbe]
      simp only [List.filter_cons, hne, if_true, List.find?, hbe]
      exact ih

/-! ## RelayEndpoint port allocator

Embeds `getNextRtpPortPair` (src/server/index.ts, lines 321-338) together with
the surrounding globals `BASE_RTP_PORT = 5000` and `nextPortPair`. -/

/-- The constant `BASE_RTP_PORT = 5000`. -/
def BASE_RTP_PORT : Nat := 5000

/-- The port pair computed by `getNextRtpPortPair` when the counter
`nextPortPair` holds `c`: `portOffset = nextPortPair * 4`,
`videoPort = BASE_RTP_PORT + portOffset`, `audioPort = BASE_RTP_PORT + portOffset + 2`. -/
def rtpPortPair (c : Nat) : Nat × Nat :=
  (BASE_RTP_PORT + c * 4, BASE_RTP_PORT + c * 4 + 2)

/-- The counter update performed by `getNextRtpPortPair`: `nextPortPair++`,
then `if (nextPortPair > 100) nextPortPair = 0`. -/
def nextCounter (c : Nat) : Nat :=
  if c + 1 > 100 then 0 else c + 1

/-- Counter value after `k` allocations starting from a freshly reset
counter (`nextPortPair = 0`). -/
def counterAfter : Nat → Nat
  | 0 => 0
  | k + 1 => nextCounter (counterAfter k)

/-- Port pair returned by the `k`-th (0-based) call to `getNextRtpPortPair`
since the last reset of `nextPortPair`. -/
def portPairSeq (k : Nat) : Nat × Nat :=
  rtpPortPair (counterAfter k)

theorem counterAfter_eq_mod (k : Nat) : counterAfter k = k % 101 := by
  induction k with
  | zero => rfl
  | succ k ih =>
    unfold counterAfter nextCounter
    rw [ih]
    rcases Nat.lt_or_ge (k % 101) 100 with h | h
    · have h2 : ¬ (k % 101 + 1 > 100) := by omega
      simp only [h2, if_false]
      omega
    · have h1 : k % 101 < 101 := Nat.mod_lt _ (by omega)
      have h100 : k % 101 = 100 := by omega
      have h2 : (k % 101 + 1 > 100) := by omega
      simp only [h2, if_true]
      omega

/-! ## Port-pair allocation traces (claim C7)

A trace model for RelayEndpoint port lifecycles.  `alloc` is what
`addStreamToHlsComposition` does (allocate a fresh pair, store the endpoint
keyed by producer id in `hlsComposition.activeStreams`); `release` is
`removeStreamFromHlsComposition`'s deletion; `reset` is the counter reset
`nextPortPair = 0` performed by the `/api/restart-hls` and
`/api/clear-hls-cache` handlers, which leaves `activeStreams` untouched. -/

inductive PortOp where
  | alloc (id : String)
  | release (id : String)
  | reset
  deriving DecidableEq

structure AllocState where
  nextPortPair : Nat
  live : List (String × (Nat × Nat))
  deriving DecidableEq

def initialAllocState : AllocState := ⟨0, []⟩

def stepPortOp (s : AllocState) : PortOp → AllocState
  | .alloc id =>
      { nextPortPair := nextCounter s.nextPortPair
        live := mapSet s.live id (rtpPortPair s.nextPortPair) }
  | .release id => { s with live := mapDelete s.live id }
  | .reset => { s with nextPortPair := 0 }

def runPortOps (ops : List PortOp) : AllocState :=
  ops.foldl stepPortOp initialAllocState

/-- Disjointness of two (video, audio) port pairs: no port shared. -/
def portsDisjoint (p q : Nat × Nat) : Bool :=
  decide (p.1 ≠ q.1) && decide (p.1 ≠ q.2) && decide (p.2 ≠ q.1) && decide (p.2 ≠ q.2)

/-- The property claim C7 asserts of every reachable state: the port pairs of
any two simultaneously-live endpoints are disjoint. -/
def livePairsDisjoint (s : AllocState) : Prop :=
  s.live.Pairwise (fun e1 e2 => portsDisjoint e1.2 e2.2 = true)

instance (s : AllocState) : Decidable (livePairsDisjoint s) := by
  unfold livePairsDisjoint
  infer_instance

/-- C7 is refuted by the concrete operation sequence
`[alloc "a", reset, alloc "b"]`: the reset performed by `/api/restart-hls`
rewinds the counter while endpoint "a" is still live, so endpoint "b"
receives the very same port pair (5000, 5002). -/
theorem c7_counterexample :
    ¬ livePairsDisjoint (runPortOps [.alloc ("a"), .reset, .alloc ("b")]) ∧
    runPortOps [.alloc ("a"), .reset, .alloc ("b")] =
      ⟨1, [("a", (5000, 5002)), ("b", (5000, 5002))]⟩ := by
  constructor
  · decide
  · decide

/-- C7 (amended): two allocations made at distinct counter values return
disjoint port pairs; collisions can only arise when the counter value repeats,
which happens exactly on an explicit reset or on wrap-around. -/
theorem c7_amended (c1 c2 : Nat) (h : c1 ≠ c2) :
    portsDisjoint (rtpPortPair c1) (rtpPortPair c2) = true := by
  unfold portsDisjoint rtpPortPair BASE_RTP_PORT
  simp only [Bool.and_eq_true, decide_eq_true_eq]
  omega

theorem c7_amended_witness :
    portsDisjoint (rtpPortPair 0) (rtpPortPair 1) = true :=
  c7_amended 0 1 (by decide)

/-- C8: the `k`-th allocation since the last counter reset returns the pair
`(5000 + 4k, 5000 + 4k + 2)` for every `k` up to the ceiling 100; once the
counter passes the ceiling it wraps to the base, so allocation 101 returns the
base pair `(5000, 5002)` again and the whole allocation sequence repeats with
period 101. -/
theorem c8_port_allocator (k : Nat) (hk : k ≤ 100) :
    portPairSeq k = (5000 + 4 * k, 5000 + 4 * k + 2) ∧
    portPairSeq 101 = (5000, 5002) ∧
    (∀ j : Nat, portPairSeq (j + 101) = portPairSeq j) := by
  refine ⟨?_, ?_, ?_⟩
  · unfold portPairSeq rtpPortPair BASE_RTP_PORT
    rw [counterAfter_eq_mod, Nat.mod_eq_of_lt (by omega)]
    simp only [Prod.mk.injEq]
    omega
  · decide
  · intro j
    unfold portPairSeq
    rw [counterAfter_eq_mod, counterAfter_eq_mod, Nat.add_mod_right]

theorem c8_port_allocator_witness :
    portPairSeq 3 = (5000 + 4 * 3, 5000 + 4 * 3 + 2) :=
  (c8_port_allocator 3 (by decide)).1

/-! ## The composition orchestrator

State of `hlsComposition` plus a model of the OS process world.  The fields
`activeStreams`, `ffmpegProcess`, `isComposing` and `nextPortPair` are the
globals of src/server/index.ts.  `liveProcs` is the set of FFmpeg transcode
processes that have been spawned and have not yet emitted their `exit` event;
`termSent` is the set of pids to which a termination signal (`SIGTERM` or
`SIGKILL`) has been sent.  These two fields model the operating system: the
code sends signals and immediately nulls its handle without awaiting exit, so
a signalled process stays in `liveProcs` until a separate `procExit` event. -/

/-- One entry of `hlsComposition.activeStreams`: producer id, allocated RTP
port pair and the paused/closed status of the plain-transport video consumer
(created with `paused: true` in `addStreamToHlsComposition`). -/
structure StreamInfo where
  producerId : String
  rtpVideoPort : Nat
  rtpAudioPort : Nat
  consumerPaused : Bool
  consumerClosed : Bool
  deriving DecidableEq

structure OrchState where
  activeStreams : List (String × StreamInfo)
  ffmpegProcess : Option Nat
  isComposing : Bool
  nextPortPair : Nat
  liveProcs : List Nat
  termSent : List Nat
  nextPid : Nat
  deriving DecidableEq

def initialOrchState : OrchState :=
  { activeStreams := [], ffmpegProcess := none, isComposing := false,
    nextPortPair := 0, liveProcs := [], termSent := [], nextPid := 0 }

/-- Externally observable effects of one orchestrator step. -/
inductive Effect where
  | spawn (pid : Nat) (args : List String)
  | sigterm (pid : Nat)
  | sigkill (pid : Nat)
  | restartInvoked
  | fallbackStatic
  | writePlaylist
  | schedResume (streamId : String) (delayMs : Nat)
  | schedKeyframe (streamId : String) (delayMs : Nat)
  | resumeConsumer (streamId : String)
  | requestKeyFrame (streamId : String)
  | closeConsumer (streamId : String)
  | closeTransport (streamId : String)
  | resetPorts
  deriving DecidableEq

def Effect.isSpawn : Effect → Bool
  | .spawn _ _ => true
  | _ => false

def Effect.isResume : Effect → Bool
  | .resumeConsumer _ => true
  | _ => false

/-- The function `getNextRtpPortPair` acting on the orchestrator state. -/
def getNextRtpPortPair (s : OrchState) : OrchState × (Nat × Nat) :=
  ({ s with nextPortPair := nextCounter s.nextPortPair }, rtpPortPair s.nextPortPair)

/-- The constant `hlsOutputFolder = path.join(__dirname, '../public/hls')`. -/
def hlsOutputFolder : String := "public/hls"

def sdpPathFor (streamId : String) : String :=
  hlsOutputFolder ++ "/stream_" ++ streamId ++ ".sdp"

def playlistOutputPath : String := hlsOutputFolder ++ "/playlist.m3u8"

def segmentPatternPath : String := hlsOutputFolder ++ "/segment_%03d.ts"

/-- The argument vector `createSingleStreamHls` passes to `spawn(ffmpegPath, args)`
(src/server/index.ts, lines 1244-1267): RTP/SDP input options, `-vcodec copy`
pass-through (no video filter), AAC audio, HLS muxer options. -/
def singleStreamArgs (sdpPath outputPath segmentPath : String) : List String :=
  ["-protocol_whitelist", "file,udp,rtp",
   "-fflags", "+genpts+igndts",
   "-use_wallclock_as_timestamps", "1",
   "-thread_queue_size", "4096",
   "-analyzeduration", "2000000",
   "-probesize", "2000000",
   "-max_delay", "500000",
   "-reorder_queue_size", "16",
   "-i", sdpPath,
   "-vcodec", "copy",
   "-acodec", "aac",
   "-b:a", "128k",
   "-ar", "44100",
   "-f", "hls",
   "-hls_time", "2",
   "-hls_list_size", "10",
   "-hls_flags", "delete_segments+append_list",
   "-hls_segment_filename", segmentPath,
   "-hls_segment_type", "mpegts",
   "-start_number", "0",
   "-y",
   outputPath]

/-- Delay (ms) of the `setTimeout` in `createSingleStreamHls` that resumes the
paused consumer after spawning FFmpeg. -/
def resumeDelayMs : Nat := 2000

/-- Delay (ms) of the nested `setTimeout` that requests a keyframe after the
consumer has been resumed. -/
def keyframeDelayMs : Nat := 1000

/-- Function `createSingleStreamHls(streamId, streamInfo)` (lines 1214-1319): writes the
SDP file, spawns FFmpeg with the pass-through argument list, stores the process
handle, clears `isComposing`, and schedules the consumer resume timer
(2000 ms); the nested keyframe timer is scheduled by the resume callback.
File-system side effects (SDP write, stale playlist deletion) do not touch the
orchestrator state and are omitted; the spawned pid is drawn from `nextPid`. -/
def createSingleStreamHls (s : OrchState) (streamId : String) : OrchState × List Effect :=
  let pid := s.nextPid
  ({ s with ffmpegProcess := some pid,
            isComposing := false,
            liveProcs := s.liveProcs ++ [pid],
            nextPid := pid + 1 },
   [Effect.spawn pid (singleStreamArgs (sdpPathFor streamId) playlistOutputPath segmentPatternPath),
    Effect.schedResume streamId resumeDelayMs])

/-- Function `createStaticInformationalStream()` (lines 1636-1668): with active streams
it kills any stored FFmpeg handle (SIGTERM, handle nulled immediately) and
falls through `createLiveStatusStream` to `createWorkingPlaylist`; with no
active streams it falls through `createVodInformationalStream` to
`createWorkingPlaylist`.  Either way the fallback generator runs and a
playlist is (re)written; no composition transcode process is started. -/
def createStaticInformationalStream (s : OrchState) : OrchState × List Effect :=
  if s.activeStreams.length > 0 then
    match s.ffmpegProcess with
    | some pid =>
        ({ s with ffmpegProcess := none, termSent := s.termSent ++ [pid] },
         [Effect.fallbackStatic, Effect.sigterm pid, Effect.writePlaylist])
    | none => (s, [Effect.fallbackStatic, Effect.writePlaylist])
  else
    (s, [Effect.fallbackStatic, Effect.writePlaylist])

/-- Function `restartHlsComposition()` (lines 1098-1212).  Branches, in source order:
with zero streams, kill any stored handle (signal only, exit not awaited) and
show the static fallback; with streams and a stored handle, return without
restarting; with the `isComposing` flag set, return (restart coalescing);
otherwise set `isComposing`, and start a single-stream HLS transcode of the
first stream — for one stream and for several alike, since the
`createMosaicHls` call is commented out in the source. -/
def restartHlsComposition (s : OrchState) : OrchState × List Effect :=
  let activeStreamCount := s.activeStreams.length
  if activeStreamCount = 0 then
    match s.ffmpegProcess with
    | some pid =>
        let s1 := { s with ffmpegProcess := none, termSent := s.termSent ++ [pid],
                           isComposing := false }
        let r := createStaticInformationalStream s1
        (r.1, [Effect.restartInvoked, Effect.sigterm pid] ++ r.2)
    | none =>
        let s1 := { s with isComposing := false }
        let r := createStaticInformationalStream s1
        (r.1, [Effect.restartInvoked] ++ r.2)
  else if s.ffmpegProcess.isSome then
    (s, [Effect.restartInvoked])
  else if s.isComposing then
    (s, [Effect.restartInvoked])
  else
    let s1 := { s with isComposing := true }
    match s1.activeStreams with
    | [] => (s1, [Effect.restartInvoked])
    | (streamId, _) :: _ =>
        let r := createSingleStreamHls s1 streamId
        (r.1, [Effect.restartInvoked] ++ r.2)

/-- Function `addStreamToHlsComposition(producer, socketId)` (lines 1018-1071), success
path for a video producer: allocate the next RTP port pair, create the plain
transport and a consumer with `paused: true`, store the endpoint in
`activeStreams`, then call `restartHlsComposition`. -/
def addStreamToHlsComposition (s : OrchState) (producerId : String) : OrchState × List Effect :=
  let a := getNextRtpPortPair s
  let info : StreamInfo :=
    { producerId := producerId, rtpVideoPort := a.2.1, rtpAudioPort := a.2.2,
      consumerPaused := true, consumerClosed := false }
  let s2 := { a.1 with activeStreams := mapSet a.1.activeStreams producerId info }
  let r := restartHlsComposition s2
  (r.1, r.2)

/-- Function `removeStreamFromHlsComposition(producerId)` (lines 1073-1096): if the
producer is not in the composition, return at once; otherwise close its
consumer and transport, delete the entry and call `restartHlsComposition`. -/
def removeStreamFromHlsComposition (s : OrchState) (producerId : String) : OrchState × List Effect :=
  match mapGet s.activeStreams producerId with
  | none => (s, [])
  | some info =>
      let closeEffects :=
        (if info.consumerClosed then [] else [Effect.closeConsumer producerId]) ++
          [Effect.closeTransport producerId]
      let s1 := { s with activeStreams := mapDelete s.activeStreams producerId }
      let r := restartHlsComposition s1
      (r.1, closeEffects ++ r.2)

/-- The `/api/restart-hls` handler (lines 232-273): kill any stored FFmpeg
handle (SIGTERM sent, handle nulled immediately), clear `isComposing`, reset
`nextPortPair` to 0, wait one second (not a stop acknowledgment), then call
`restartHlsComposition` if any streams are active. -/
def restartApiHandler (s : OrchState) : OrchState × List Effect :=
  let k : OrchState × List Effect :=
    match s.ffmpegProcess with
    | some pid =>
        ({ s with ffmpegProcess := none, termSent := s.termSent ++ [pid] },
         [Effect.sigterm pid])
    | none => (s, [])
  let s2 := { k.1 with isComposing := false, nextPortPair := 0 }
  if s2.activeStreams.length > 0 then
    let r := restartHlsComposition s2
    (r.1, k.2 ++ [Effect.resetPorts] ++ r.2)
  else
    (s2, k.2 ++ [Effect.resetPorts])

/-- The `exit` handler installed on every spawned transcode process
(lines 1293-1302): when a spawned, still-live process exits, it is removed
from the live set, and the handler — regardless of whether this process is
the currently stored one — nulls `hlsComposition.ffmpegProcess`, clears
`isComposing`, and on a non-zero, non-null exit code invokes
`createStaticInformationalStream`. -/
def processExitHandler (s : OrchState) (pid : Nat) (code : Option Nat) : OrchState × List Effect :=
  if pid ∈ s.liveProcs then
    let s1 := { s with liveProcs := s.liveProcs.filter (fun p => p != pid),
                       ffmpegProcess := none,
                       isComposing := false }
    match code with
    | some c => if c ≠ 0 then createStaticInformationalStream s1 else (s1, [])
    | none => (s1, [])
  else
    (s, [])

/-- The body of the 2000 ms `setTimeout` in `createSingleStreamHls`
(lines 1305-1318): if the stream's consumer still exists, is open and paused,
resume it and schedule the keyframe request 1000 ms later. -/
def resumeTimerBody (s : OrchState) (streamId : String) : OrchState × List Effect :=
  match mapGet s.activeStreams streamId with
  | some info =>
      if !info.consumerClosed && info.consumerPaused then
        ({ s with activeStreams :=
              mapSet s.activeStreams streamId { info with consumerPaused := false } },
         [Effect.resumeConsumer streamId, Effect.schedKeyframe streamId keyframeDelayMs])
      else (s, [])
  | none => (s, [])

/-- The body of the nested 1000 ms `setTimeout` (lines 1311-1316): request a
keyframe from the consumer if it is still open. -/
def keyframeTimerBody (s : OrchState) (streamId : String) : OrchState × List Effect :=
  match mapGet s.activeStreams streamId with
  | some info =>
      if !info.consumerClosed then (s, [Effect.requestKeyFrame streamId]) else (s, [])
  | none => (s, [])

/-- The entry points through which the event loop drives the orchestrator:
producer arrival (`socket.on('produce')` → `addStreamToHlsComposition`),
producer departure (`producer.on('transportclose')` →
`removeStreamFromHlsComposition`), the `/api/restart-hls` endpoint, a process
`exit` event, and the two timers scheduled by `createSingleStreamHls`. -/
inductive OrchEvent where
  | add (id : String)
  | remove (id : String)
  | restartApi
  | procExit (pid : Nat) (code : Option Nat)
  | resumeTimer (id : String)
  | keyframeTimer (id : String)
  deriving DecidableEq

def orchStep (s : OrchState) : OrchEvent → OrchState × List Effect
  | .add id => addStreamToHlsComposition s id
  | .remove id => removeStreamFromHlsComposition s id
  | .restartApi => restartApiHandler s
  | .procExit pid code => processExitHandler s pid code
  | .resumeTimer id => resumeTimerBody s id
  | .keyframeTimer id => keyframeTimerBody s id

def runOrchTrace (events : List OrchEvent) : OrchState :=
  events.foldl (fun s e => (orchStep s e).1) initialOrchState

/-! ## The legacy single-stream stop path

`stopFfmpegStream()` (src/server/index.ts, lines 796-829) operates on the
legacy globals `ffmpegProcess`, `isFfmpegLaunching` and `hlsStreamSource`:
clear the launching flag, SIGKILL and null the process handle if present,
close and clear the video and audio RTP consumers if present (skipping the
`close()` call when already closed), and clear both producer ids. -/

structure LegacyState where
  ffmpegProcess : Option Nat
  isFfmpegLaunching : Bool
  videoRtpConsumerClosed : Option Bool
  audioRtpConsumerClosed : Option Bool
  videoProducerId : Option String
  audioProducerId : Option String
  deriving DecidableEq

inductive StopEffect where
  | sigkill (pid : Nat)
  | closeVideoConsumer
  | closeAudioConsumer
  deriving DecidableEq

def stopFfmpegStream (s : LegacyState) : LegacyState × List StopEffect :=
  let k : LegacyState × List StopEffect :=
    match s.ffmpegProcess with
    | some pid =>
        ({ s with isFfmpegLaunching := false, ffmpegProcess := none },
         [StopEffect.sigkill pid])
    | none => ({ s with isFfmpegLaunching := false }, [])
  let v : LegacyState × List StopEffect :=
    match k.1.videoRtpConsumerClosed with
    | some closed =>
        ({ k.1 with videoRtpConsumerClosed := none },
         if closed then [] else [StopEffect.closeVideoConsumer])
    | none => (k.1, [])
  let a : LegacyState × List StopEffect :=
    match v.1.audioRtpConsumerClosed with
    | some closed =>
        ({ v.1 with audioRtpConsumerClosed := none },
         if closed then [] else [StopEffect.closeAudioConsumer])
    | none => (v.1, [])
  ({ a.1 with videoProducerId := none, audioProducerId := none },
   k.2 ++ v.2 ++ a.2)

/-! ## Helper lemmas about the orchestrator -/

theorem restart_preserves_activeStreams (s : OrchState) :
    (restartHlsComposition s).1.activeStreams = s.activeStreams := by
  rcases s with ⟨streams, proc, comp, npp, live, term, npid⟩
  cases streams with
  | nil =>
    cases proc <;> simp [restartHlsComposition, createStaticInformationalStream]
  | cons hd tl =>
    rcases hd with ⟨sid, info⟩
    cases proc with
    | some p => simp [restartHlsComposition]
    | none =>
      cases comp with
      | true => simp [restartHlsComposition]
      | false => simp [restartHlsComposition, createSingleStreamHls]

theorem remove_not_mem (t : OrchState) (id : String)
    (hg : mapGet t.activeStreams id = none) :
    removeStreamFromHlsComposition t id = (t, []) := by
  unfold removeStreamFromHlsComposition
  rw [hg]

/-- Concrete states used to instantiate the universally quantified theorems. -/
def witnessStreamInfo : StreamInfo :=
  { producerId := "a", rtpVideoPort := 5000, rtpAudioPort := 5002,
    consumerPaused := true, consumerClosed := false }

def oneStreamState : OrchState :=
  { activeStreams := [("a", witnessStreamInfo)], ffmpegProcess := none,
    isComposing := false, nextPortPair := 1, liveProcs := [], termSent := [],
    nextPid := 0 }

def composingState : OrchState := { oneStreamState with isComposing := true }

def twoStreamState : OrchState :=
  { activeStreams :=
      [("a", witnessStreamInfo),
       ("b", { producerId := "b", rtpVideoPort := 5004, rtpAudioPort := 5006,
               consumerPaused := true, consumerClosed := false })],
    ffmpegProcess := none, isComposing := false, nextPortPair := 2,
    liveProcs := [], termSent := [], nextPid := 0 }

/-! ## Claim C1 -/

/-- C1 is refuted by the event sequence: producer "a" arrives (spawns process
0); `/api/restart-hls` is called (SIGTERM to process 0, handle nulled, process
1 spawned while process 0 is still running — already two live processes);
process 0 finally exits, and its stale `exit` handler nulls the handle that
now stores process 1; producer "b" arrives and, seeing a null handle, the
orchestrator spawns process 2 while process 1 is still live and has never
even been sent a termination signal. -/
theorem c1_counterexample :
    (runOrchTrace [.add ("a"), .restartApi, .procExit 0 none, .add ("b")]).liveProcs = [1, 2] ∧
    1 ∉ (runOrchTrace [.add ("a"), .restartApi, .procExit 0 none, .add ("b")]).termSent ∧
    (runOrchTrace [.add ("a"), .restartApi]).liveProcs = [0, 1] := by
  refine ⟨by decide, by decide, by decide⟩

/-- C1 (amended): the orchestrator stores at most one process handle and
spawns a new transcode process only when no handle is stored, no restart is in
flight and at least one stream is active — and each restart spawns at most one
process.  Stops, however, are only signalled, never acknowledged, so a live
process that has been signalled (or whose handle was clobbered by a stale exit
event) may still be running when the next process starts. -/
theorem c1_amended (s : OrchState)
    (h : (restartHlsComposition s).2.any Effect.isSpawn = true) :
    s.ffmpegProcess = none ∧ s.isComposing = false ∧ s.activeStreams ≠ [] ∧
    ((restartHlsComposition s).2.filter Effect.isSpawn).length ≤ 1 := by
  rcases s with ⟨streams, proc, comp, npp, live, term, npid⟩
  cases streams with
  | nil =>
    exfalso
    cases proc <;>
      simp [restartHlsComposition, createStaticInformationalStream, Effect.isSpawn] at h
  | cons hd tl =>
    rcases hd with ⟨sid, info⟩
    cases proc with
    | some p =>
      exfalso
      simp [restartHlsComposition, Effect.isSpawn] at h
    | none =>
      cases comp with
      | true =>
        exfalso
        simp [restartHlsComposition, Effect.isSpawn] at h
      | false =>
        refine ⟨rfl, rfl, by simp, ?_⟩
        simp [restartHlsComposition, createSingleStreamHls, Effect.isSpawn]

theorem c1_amended_witness :
    oneStreamState.ffmpegProcess = none ∧ oneStreamState.isComposing = false ∧
    oneStreamState.activeStreams ≠ [] ∧
    ((restartHlsComposition oneStreamState).2.filter Effect.isSpawn).length ≤ 1 :=
  c1_amended oneStreamState (by decide)

/-! ## Claim C2 -/

/-- C2: while `hlsComposition.isComposing` is set, a further call to
`restartHlsComposition` never starts another transcode process — every branch
reachable with the flag set returns without a spawn effect, so concurrent
restart requests are dropped rather than queued. -/
theorem c2_restart_coalescing (s : OrchState) (h : s.isComposing = true) :
    ((restartHlsComposition s).2.all (fun e => !(Effect.isSpawn e))) = true := by
  rcases s with ⟨streams, proc, comp, npp, live, term, npid⟩
  cases h
  cases streams with
  | nil =>
    cases proc <;>
      simp [restartHlsComposition, createStaticInformationalStream, Effect.isSpawn]
  | cons hd tl =>
    rcases hd with ⟨sid, info⟩
    cases proc with
    | some p => simp [restartHlsComposition, Effect.isSpawn]
    | none => simp [restartHlsComposition, Effect.isSpawn]

theorem c2_restart_coalescing_witness :
    ((restartHlsComposition composingState).2.all (fun e => !(Effect.isSpawn e))) = true :=
  c2_restart_coalescing composingState rfl

/-! ## Claim C4 -/

/-- C4 is refuted at a concrete input: after producer "a" arrives (process 0
live), process 0 exits with code 1; the exit handler invokes the fallback
generator but performs no call to `restartHlsComposition` — no restart attempt
is scheduled, contrary to the claim of exactly one. -/
theorem c4_counterexample :
    (runOrchTrace [.add ("a")]).liveProcs = [0] ∧
    (runOrchTrace [.add ("a")]).activeStreams.length = 1 ∧
    (orchStep (runOrchTrace [.add ("a")]) (.procExit 0 (some 1))).2 =
      [Effect.fallbackStatic, Effect.writePlaylist] ∧
    Effect.restartInvoked ∉ (orchStep (runOrchTrace [.add ("a")]) (.procExit 0 (some 1))).2 := by
  refine ⟨by decide, by decide, by decide, by decide⟩

/-- C4 (amended): when a live transcode process exits abnormally (non-zero
exit code) while producers are still present, the exit handler invokes the
fallback content generator, but schedules no restart of the composition: no
call to `restartHlsComposition` and no process spawn occurs.  The composition
restarts only on the next producer add/remove or explicit restart request. -/
theorem c4_amended (s : OrchState) (pid : Nat) (c : Nat)
    (hlive : pid ∈ s.liveProcs) (hc : c ≠ 0) (hs : s.activeStreams ≠ []) :
    Effect.fallbackStatic ∈ (processExitHandler s pid (some c)).2 ∧
    Effect.restartInvoked ∉ (processExitHandler s pid (some c)).2 ∧
    ((processExitHandler s pid (some c)).2.all (fun e => !(Effect.isSpawn e))) = true := by
  have hlen : 0 < s.activeStreams.length := List.length_pos.mpr hs
  unfold processExitHandler createStaticInformationalStream
  simp [hlive, hc, hlen, Effect.isSpawn]

theorem c4_amended_witness :
    Effect.fallbackStatic ∈
      (processExitHandler (runOrchTrace [.add ("a")]) 0 (some 1)).2 ∧
    Effect.restartInvoked ∉
      (processExitHandler (runOrchTrace [.add ("a")]) 0 (some 1)).2 ∧
    ((processExitHandler (runOrchTrace [.add ("a")]) 0 (some 1)).2.all
        (fun e => !(Effect.isSpawn e))) = true :=
  c4_amended (runOrchTrace [.add ("a")]) 0 1 (by decide) (by decide) (by decide)

/-! ## Claim C9 -/

/-- C9: removing the same producer from the composition twice, and stopping
the same transcode process handle twice, are idempotent: the second call
returns with the state unchanged, produces no error, and performs no further
side effect (no second close, kill or restart). -/
theorem c9_idempotence :
    (∀ (s : OrchState) (id : String),
        removeStreamFromHlsComposition (removeStreamFromHlsComposition s id).1 id =
          ((removeStreamFromHlsComposition s id).1, [])) ∧
    (∀ s : LegacyState,
        stopFfmpegStream (stopFfmpegStream s).1 = ((stopFfmpegStream s).1, [])) := by
  constructor
  · intro s id
    have h1 : mapGet (removeStreamFromHlsComposition s id).1.activeStreams id = none := by
      cases hg : mapGet s.activeStreams id with
      | none => rw [remove_not_mem s id hg]; exact hg
      | some info =>
        unfold removeStreamFromHlsComposition
        rw [hg]
        simp only
        rw [restart_preserves_activeStreams]
        exact mapGet_mapDelete _ _
    exact remove_not_mem _ id h1
  · intro s
    rcases s with ⟨proc, launch, v, a, vp, ap⟩
    cases proc <;> cases v <;> cases a <;> simp [stopFfmpegStream]

/-! ## Claim C3: requested output topology

`createMosaicHls(streams)` (lines 1321-1508) builds an FFmpeg
`-filter_complex` graph from the stream count, but its only call site
(inside `restartHlsComposition`, lines 1187-1199) is commented out in the
source; the multi-stream branch calls `createSingleStreamHls` on the first
stream instead.  The filter builder is embedded here so the dead layout
logic can be compared with the claim. -/

/-- JavaScript `Math.ceil(Math.sqrt(streamCount))`. -/
def ceilSqrt (n : Nat) : Nat :=
  if Nat.sqrt n * Nat.sqrt n = n then Nat.sqrt n else Nat.sqrt n + 1

/-- JavaScript `Math.ceil(streamCount / cols)`. -/
def ceilDiv (a b : Nat) : Nat := (a + b - 1) / b

/-- The per-input scale filters of the generic grid branch
(lines 1400-1403): `[i:v]scale=W:H,setpts=PTS-STARTPTS[vi];` for each input. -/
def gridScaleFilters (streamCount cellWidth cellHeight : Nat) : String :=
  (List.range streamCount).foldl
    (fun acc i =>
      acc ++ "[" ++ toString i ++ ":v]scale=" ++ toString cellWidth ++ ":" ++
        toString cellHeight ++ ",setpts=PTS-STARTPTS[v" ++ toString i ++ "];")
    ""

/-- Number of inputs placed in grid row `row` (the inner `for col` loop runs
while `col < cols && currentIdx < streamCount`). -/
def rowInputsCount (streamCount cols row : Nat) : Nat :=
  min cols (streamCount - row * cols)

/-- The concatenated `[v<idx>]` labels of one grid row (lines 1408-1412). -/
def rowInputLabels (streamCount cols row : Nat) : String :=
  (List.range (rowInputsCount streamCount cols row)).foldl
    (fun acc k => acc ++ "[v" ++ toString (row * cols + k) ++ "]") ""

/-- The per-row `hstack` filters (lines 1406-1417). -/
def gridRowFilters (streamCount cols rows : Nat) : String :=
  (List.range rows).foldl
    (fun acc row =>
      if rowInputsCount streamCount cols row > 0 then
        acc ++ rowInputLabels streamCount cols row ++ "hstack=inputs=" ++
          toString (rowInputsCount streamCount cols row) ++ "[row" ++
          toString row ++ "];"
      else acc)
    ""

/-- The `[row<r>]` labels fed into the final `vstack` (lines 1420-1425). -/
def gridRowLabels (streamCount cols rows : Nat) : String :=
  (List.range rows).foldl
    (fun acc row =>
      if row * cols < streamCount then acc ++ "[row" ++ toString row ++ "]" else acc)
    ""

/-- Number of non-empty grid rows (length of `rowLabels`). -/
def gridRowCount (streamCount cols rows : Nat) : Nat :=
  (List.range rows).countP (fun row => decide (row * cols < streamCount))

/-- The grid branch of the filter builder (lines 1393-1426), for more than
four streams: `cols = ceil(sqrt(n))`, `rows = ceil(n / cols)`, cells of
`floor(1280/cols) x floor(720/rows)`. -/
def mosaicGridFilter (streamCount : Nat) : String :=
  let cols := ceilSqrt streamCount
  let rows := ceilDiv streamCount cols
  let cellWidth := 1280 / cols
  let cellHeight := 720 / rows
  gridScaleFilters streamCount cellWidth cellHeight ++
    gridRowFilters streamCount cols rows ++
    gridRowLabels streamCount cols rows ++
    "vstack=inputs=" ++ toString (gridRowCount streamCount cols rows) ++ "[out]"

/-- The `filterComplex` string of `createMosaicHls` (lines 1368-1427):
side-by-side `hstack` for 2 streams, two-on-top/one-on-bottom for 3, a 2x2
grid for 4, and the generic N-cell grid otherwise. -/
def mosaicFilterComplex (streamCount : Nat) : String :=
  if streamCount = 2 then
    "[0:v]scale=640:480,setpts=PTS-STARTPTS[v0];[1:v]scale=640:480,setpts=PTS-STARTPTS[v1];[v0][v1]hstack=inputs=2[out]"
  else if streamCount = 3 then
    "[0:v]scale=640:480,setpts=PTS-STARTPTS[v0];[1:v]scale=640:480,setpts=PTS-STARTPTS[v1];[2:v]scale=640:480,setpts=PTS-STARTPTS[v2];[v0][v1]hstack=inputs=2[top];[v2]scale=1280:480[bottom];[top][bottom]vstack=inputs=2[out]"
  else if streamCount = 4 then
    "[0:v]scale=640:480,setpts=PTS-STARTPTS[v0];[1:v]scale=640:480,setpts=PTS-STARTPTS[v1];[2:v]scale=640:480,setpts=PTS-STARTPTS[v2];[3:v]scale=640:480,setpts=PTS-STARTPTS[v3];[v0][v1]hstack=inputs=2[top];[v2][v3]hstack=inputs=2[bottom];[top][bottom]vstack=inputs=2[out]"
  else mosaicGridFilter streamCount

/-- Per-input argument block of `createMosaicHls` (lines 1353-1364). -/
def mosaicInputArgs (sdpFile : String) : List String :=
  ["-protocol_whitelist", "file,udp,rtp",
   "-fflags", "+genpts+igndts",
   "-use_wallclock_as_timestamps", "1",
   "-thread_queue_size", "4096",
   "-analyzeduration", "2000000",
   "-probesize", "2000000",
   "-max_delay", "500000",
   "-reorder_queue_size", "16",
   "-i", sdpFile]

/-- The full argument vector of `createMosaicHls` (lines 1350-1454): one input
block per SDP file, then the compositing filter graph and a libx264 re-encode
into the HLS muxer. -/
def mosaicArgs (sdpFiles : List String) (streamCount : Nat) : List String :=
  (sdpFiles.map mosaicInputArgs).flatten ++
  ["-filter_complex", mosaicFilterComplex streamCount,
   "-map", "[out]",
   "-vcodec", "libx264",
   "-preset", "veryfast",
   "-tune", "zerolatency",
   "-profile:v", "baseline",
   "-level", "3.1",
   "-pix_fmt", "yuv420p",
   "-g", "30",
   "-keyint_min", "30",
   "-sc_threshold", "0",
   "-b:v", "2000k",
   "-maxrate", "2500k",
   "-bufsize", "4000k",
   "-r", "30",
   "-f", "hls",
   "-hls_time", "2",
   "-hls_list_size", "10",
   "-hls_flags", "delete_segments+append_list",
   "-hls_segment_filename", segmentPatternPath,
   "-hls_segment_type", "mpegts",
   "-start_number", "0",
   "-y",
   playlistOutputPath]

theorem sdpPathFor_length (id : String) : (sdpPathFor id).length = id.length + 22 := by
  simp only [sdpPathFor, hlsOutputFolder, String.length_append]
  have h1 : ("public/hls" : String).length = 10 := by decide
  have h2 : ("/stream_" : String).length = 8 := by decide
  have h3 : (".sdp" : String).length = 4 := by decide
  omega

/-- The single-stream argument vector never carries a compositing filter,
whatever the producer id is. -/
theorem filter_complex_not_mem (id : String) :
    "-filter_complex" ∉
      singleStreamArgs (sdpPathFor id) playlistOutputPath segmentPatternPath := by
  have hsdp : ¬ ("-filter_complex" = sdpPathFor id) := by
    intro h
    have hl := congrArg String.length h
    rw [sdpPathFor_length] at hl
    have : ("-filter_complex" : String).length = 15 := by decide
    omega
  intro h
  simp only [singleStreamArgs, List.mem_cons, List.not_mem_nil, or_false] at h
  rcases h with h|h|h|h|h|h|h|h|h|h|h|h|h|h|h|h|h|h|h|h|h|h|h|h|h|h|h|h|h|h|h|h|h|h|h|h|h|h|h|h|h
  all_goals first
    | exact hsdp h
    | exact absurd h (by decide)

/-- C3 is refuted at a concrete input: with two active producers (and no
running process or in-flight restart) a restart spawns a single-stream
pass-through of the first producer — the spawned argument vector contains
`-vcodec copy` and no `-filter_complex` — instead of the side-by-side layout
the claim requires for a producer count of 2. -/
theorem c3_counterexample :
    twoStreamState.activeStreams.length = 2 ∧
    ((restartHlsComposition twoStreamState).2.any Effect.isSpawn) = true ∧
    ((restartHlsComposition twoStreamState).2.all (fun e =>
        match e with
        | .spawn _ args =>
            decide ("-filter_complex" ∉ args) &&
            decide ("-vcodec" ∈ args) && decide ("copy" ∈ args)
        | _ => true)) = true := by
  refine ⟨by decide, by decide, by decide⟩

/-- C3 (amended): the topology requested on restart is a deterministic
function of the producer count, but for every count of one or more it is
direct single-stream pass-through of the first producer (`-vcodec copy`, no
compositing filter).  The count-determined layouts (side-by-side for 2,
2-top/1-bottom for 3, 2x2 for 4, N-cell grid beyond) exist only in
`createMosaicHls`, whose invocation is commented out, so its compositing
filter graph is never requested. -/
theorem c3_amended (s : OrchState)
    (h1 : s.activeStreams ≠ []) (h2 : s.ffmpegProcess = none)
    (h3 : s.isComposing = false) :
    (∃ streamId info rest,
        s.activeStreams = (streamId, info) :: rest ∧
        (restartHlsComposition s).2 =
          [Effect.restartInvoked,
           Effect.spawn s.nextPid
             (singleStreamArgs (sdpPathFor streamId) playlistOutputPath segmentPatternPath),
           Effect.schedResume streamId resumeDelayMs] ∧
        "-filter_complex" ∉
          singleStreamArgs (sdpPathFor streamId) playlistOutputPath segmentPatternPath ∧
        "-vcodec" ∈
          singleStreamArgs (sdpPathFor streamId) playlistOutputPath segmentPatternPath ∧
        "copy" ∈
          singleStreamArgs (sdpPathFor streamId) playlistOutputPath segmentPatternPath) ∧
    "-filter_complex" ∈ mosaicArgs [sdpPathFor ("a"), sdpPathFor ("b")] 2 := by
  constructor
  · rcases s with ⟨streams, proc, comp, npp, live, term, npid⟩
    cases streams with
    | nil => exact absurd rfl h1
    | cons hd tl =>
      rcases hd with ⟨sid, info⟩
      cases proc with
      | some p => exact absurd h2 (by simp)
      | none =>
        cases comp with
        | true => exact absurd h3 (by simp)
        | false =>
          refine ⟨sid, info, tl, rfl, ?_, filter_complex_not_mem sid, ?_, ?_⟩
          · simp [restartHlsComposition, createSingleStreamHls]
          · simp [singleStreamArgs]
          · simp [singleStreamArgs]
  · simp [mosaicArgs]

theorem c3_amended_witness :
    (∃ streamId info rest,
        twoStreamState.activeStreams = (streamId, info) :: rest ∧
        (restartHlsComposition twoStreamState).2 =
          [Effect.restartInvoked,
           Effect.spawn twoStreamState.nextPid
             (singleStreamArgs (sdpPathFor streamId) playlistOutputPath segmentPatternPath),
           Effect.schedResume streamId resumeDelayMs] ∧
        "-filter_complex" ∉
          singleStreamArgs (sdpPathFor streamId) playlistOutputPath segmentPatternPath ∧
        "-vcodec" ∈
          singleStreamArgs (sdpPathFor streamId) playlistOutputPath segmentPatternPath ∧
        "copy" ∈
          singleStreamArgs (sdpPathFor streamId) playlistOutputPath segmentPatternPath) ∧
    "-filter_complex" ∈ mosaicArgs [sdpPathFor ("a"), sdpPathFor ("b")] 2 :=
  c3_amended twoStreamState (by decide) rfl rfl

/-! ## Claim C6: consumer pause/resume/keyframe lifecycle -/

theorem restart_no_resume (s : OrchState) :
    (restartHlsComposition s).2.any Effect.isResume = false := by
  rcases s with ⟨streams, proc, comp, npp, live, term, npid⟩
  cases streams with
  | nil =>
    cases proc <;>
      simp [restartHlsComposition, createStaticInformationalStream, Effect.isResume]
  | cons hd tl =>
    rcases hd with ⟨sid, info⟩
    cases proc with
    | some p => simp [restartHlsComposition, Effect.isResume]
    | none =>
      cases comp with
      | true => simp [restartHlsComposition, Effect.isResume]
      | false => simp [restartHlsComposition, createSingleStreamHls, Effect.isResume]

theorem staticStream_no_resume (s : OrchState) :
    (createStaticInformationalStream s).2.any Effect.isResume = false := by
  unfold createStaticInformationalStream
  by_cases h : s.activeStreams.length > 0
  · cases hp : s.ffmpegProcess <;> simp [h, hp, Effect.isResume]
  · simp [h, Effect.isResume]

theorem add_no_resume (s : OrchState) (id : String) :
    (addStreamToHlsComposition s id).2.any Effect.isResume = false := by
  unfold addStreamToHlsComposition
  simp [restart_no_resume]

theorem remove_no_resume (s : OrchState) (id : String) :
    (removeStreamFromHlsComposition s id).2.any Effect.isResume = false := by
  unfold removeStreamFromHlsComposition
  cases hg : mapGet s.activeStreams id with
  | none => simp
  | some info =>
    cases hc : info.consumerClosed <;>
      simp [List.any_append, restart_no_resume, Effect.isResume, hc]

theorem restartApi_no_resume (s : OrchState) :
    (restartApiHandler s).2.any Effect.isResume = false := by
  rcases s with ⟨streams, proc, comp, npp, live, term, npid⟩
  cases streams with
  | nil =>
    cases proc <;> simp [restartApiHandler, Effect.isResume]
  | cons hd tl =>
    cases proc <;>
      simp [restartApiHandler, List.any_append, restart_no_resume, Effect.isResume]

theorem procExit_no_resume (s : OrchState) (pid : Nat) (code : Option Nat) :
    (processExitHandler s pid code).2.any Effect.isResume = false := by
  unfold processExitHandler
  by_cases hm : pid ∈ s.liveProcs
  · simp only [if_pos hm]
    cases code with
    | none => simp
    | some c =>
      by_cases hc : c ≠ 0
      · simp [hc, staticStream_no_resume]
      · simp [hc]
  · simp [hm]

theorem keyframe_no_resume (s : OrchState) (id : String) :
    (keyframeTimerBody s id).2.any Effect.isResume = false := by
  unfold keyframeTimerBody
  cases hg : mapGet s.activeStreams id with
  | none => simp
  | some info => cases hc : info.consumerClosed <;> simp [hc, Effect.isResume]

/-- C6: every consumer enters the composition in the paused state (the stream
record stored by `addStreamToHlsComposition` has `consumerPaused = true`); the
only way a consumer is ever resumed is the timer scheduled by
`createSingleStreamHls` when it spawns the transcode process, whose delay of
2000 ms lies in the claimed 0.5-2 s window; and the resume callback schedules
an explicit keyframe request (fired 1000 ms later if the consumer is still
open). -/
theorem c6_consumer_lifecycle :
    (∀ (s : OrchState) (id : String),
        mapGet (addStreamToHlsComposition s id).1.activeStreams id =
          some { producerId := id,
                 rtpVideoPort := (rtpPortPair s.nextPortPair).1,
                 rtpAudioPort := (rtpPortPair s.nextPortPair).2,
                 consumerPaused := true, consumerClosed := false }) ∧
    (500 ≤ resumeDelayMs ∧ resumeDelayMs ≤ 2000) ∧
    (∀ (s : OrchState) (id : String),
        (createSingleStreamHls s id).2 =
          [Effect.spawn s.nextPid
             (singleStreamArgs (sdpPathFor id) playlistOutputPath segmentPatternPath),
           Effect.schedResume id resumeDelayMs]) ∧
    (∀ (s : OrchState) (ev : OrchEvent),
        ((orchStep s ev).2.any Effect.isResume = true) →
          ∃ id, ev = OrchEvent.resumeTimer id) ∧
    (∀ (s : OrchState) (id : String),
        Effect.resumeConsumer id ∈ (resumeTimerBody s id).2 →
          Effect.schedKeyframe id keyframeDelayMs ∈ (resumeTimerBody s id).2) ∧
    (∀ (s : OrchState) (id : String) (info : StreamInfo),
        mapGet s.activeStreams id = some info → info.consumerClosed = false →
          (keyframeTimerBody s id).2 = [Effect.requestKeyFrame id]) := by
  refine ⟨?_, by decide, ?_, ?_, ?_, ?_⟩
  · intro s id
    unfold addStreamToHlsComposition getNextRtpPortPair
    simp only
    rw [restart_preserves_activeStreams]
    exact mapGet_mapSet _ _ _
  · intro s id
    rfl
  · intro s ev h
    cases ev with
    | add id =>
      rw [show orchStep s (.add id) = addStreamToHlsComposition s id from rfl,
        add_no_resume] at h
      exact absurd h (by simp)
    | remove id =>
      rw [show orchStep s (.remove id) = removeStreamFromHlsComposition s id from rfl,
        remove_no_resume] at h
      exact absurd h (by simp)
    | restartApi =>
      rw [show orchStep s .restartApi = restartApiHandler s from rfl,
        restartApi_no_resume] at h
      exact absurd h (by simp)
    | procExit pid code =>
      rw [show orchStep s (.procExit pid code) = processExitHandler s pid code from rfl,
        procExit_no_resume] at h
      exact absurd h (by simp)
    | resumeTimer id => exact ⟨id, rfl⟩
    | keyframeTimer id =>
      rw [show orchStep s (.keyframeTimer id) = keyframeTimerBody s id from rfl,
        keyframe_no_resume] at h
      exact absurd h (by simp)
  · intro s id h
    unfold resumeTimerBody at h ⊢
    cases hg : mapGet s.activeStreams id with
    | none =>
      rw [hg] at h
      simp at h
    | some info =>
      rw [hg] at h
      by_cases hc : (!info.consumerClosed && info.consumerPaused) = true
      · simp [hc]
      · simp [hc] at h
  · intro s id info hg hc
    unfold keyframeTimerBody
    rw [hg]
    simp [hc]

theorem c6_consumer_lifecycle_witness :
    mapGet (addStreamToHlsComposition initialOrchState ("a")).1.activeStreams ("a") =
      some { producerId := "a",
             rtpVideoPort := (rtpPortPair initialOrchState.nextPortPair).1,
             rtpAudioPort := (rtpPortPair initialOrchState.nextPortPair).2,
             consumerPaused := true, consumerClosed := false } :=
  c6_consumer_lifecycle.1 initialOrchState ("a")

/-! ## Claim C5: the fallback content generator

`createWorkingPlaylist` (lines 1691-1818), `createMinimalHlsPlaylist`
(lines 1920-1936) and the call to `createMinimalValidTsFile` in the FFmpeg
error callback are embedded over an explicit file-system state: a map from
file name to file content, where playlist contents are kept as their list of
lines (the source writes them as template literals) and media file contents
are abstract markers (the exact bytes written by `createMinimalValidTsFile`
are modelled separately below).  A `FallbackOracle` records which of the
fallible external operations (`fs.writeFileSync` calls, the FFmpeg demo
segment conversion) fail; `try`/`catch` becomes `Except`, where the `Body`
definitions are the guarded `try` blocks and the wrappers are the `catch`
handlers.  Failures inside the asynchronous FFmpeg callbacks never reach the
caller (the call has already returned), so there they skip the write instead
of producing an error. -/

abbrev FS := List (String × List String)

def fsWrite (fs : FS) (name : String) (content : List String) : FS :=
  mapSet fs name content

def fsExists (fs : FS) (name : String) : Bool :=
  fs.any (fun e => e.1 == name)

def fsUnlink (fs : FS) (name : String) : FS :=
  mapDelete fs name

def hashChar : Char := '#'

/-- A playlist line that references a media segment: non-empty and not an
HLS tag line (tag lines start with the hash character). -/
def isSegmentLine (l : String) : Bool :=
  match l.data with
  | [] => false
  | c :: _ => c != hashChar

/-- The segment files referenced by a playlist. -/
def playlistSegmentRefs (lines : List String) : List String :=
  lines.filter isSegmentLine

/-- The playlist template written by `createWorkingPlaylist`
(lines 1755-1762, 1782-1789 and 1801-1808 — the same literal three times). -/
def workingPlaylistLines : List String :=
  ["#EXTM3U", "#EXT-X-VERSION:3", "#EXT-X-TARGETDURATION:2",
   "#EXT-X-MEDIA-SEQUENCE:0", "#EXT-X-PLAYLIST-TYPE:VOD", "#EXTINF:2.0,",
   "demo-segment.ts", "#EXT-X-ENDLIST"]

/-- The playlist template written by `createMinimalHlsPlaylist`
(lines 1922-1929). -/
def minimalPlaylistLines : List String :=
  ["#EXTM3U", "#EXT-X-VERSION:3", "#EXT-X-TARGETDURATION:10",
   "#EXT-X-MEDIA-SEQUENCE:0", "#EXT-X-PLAYLIST-TYPE:VOD", "#EXTINF:10.0,",
   "demo-segment.ts", "#EXT-X-ENDLIST"]

def demoSegmentFile : String := "demo-segment.ts"

def playlistFile : String := "playlist.m3u8"

def rawBlackFile : String := "black.yuv"

/-- Which fallible external operations fail during one run of the fallback
generator. -/
structure FallbackOracle where
  rawWriteFails : Bool
  demoSegmentFfmpegFails : Bool
  playlistWriteFails : Bool
  minimalPlaylistWriteFails : Bool
  deriving DecidableEq

/-- The `try` block of `createMinimalHlsPlaylist`: a single
`fs.writeFileSync` of the hard-coded minimal playlist. -/
def createMinimalHlsPlaylistBody (o : FallbackOracle) (fs : FS) : Except String FS :=
  if o.minimalPlaylistWriteFails then Except.error ("writeFileSync failed")
  else Except.ok (fsWrite fs playlistFile minimalPlaylistLines)

/-- Function `createMinimalHlsPlaylist()` (lines 1920-1936): the `catch` only logs, so
the caller always gets a result. -/
def createMinimalHlsPlaylist (o : FallbackOracle) (fs : FS) : Except String FS :=
  match createMinimalHlsPlaylistBody o fs with
  | Except.ok fs1 => Except.ok fs1
  | Except.error _ => Except.ok fs

/-- The `try` block of `createWorkingPlaylist` (lines 1692-1812), carried
through the FFmpeg callbacks to completion: if `demo-segment.ts` exists, just
write the playlist; otherwise write a raw black YUV frame, convert it with
FFmpeg, and in the conversion callbacks unlink the raw file and write the
playlist — on conversion error, `createMinimalValidTsFile` first writes the
demo segment directly.  Callback-time write failures do not reach the caller
and are modelled as skipped writes. -/
def createWorkingPlaylistBody (o : FallbackOracle) (fs : FS) : Except String FS :=
  if fsExists fs demoSegmentFile then
    if o.playlistWriteFails then Except.error ("writeFileSync playlist failed")
    else Except.ok (fsWrite fs playlistFile workingPlaylistLines)
  else
    if o.rawWriteFails then Except.error ("writeFileSync black.yuv failed")
    else
      let fs1 := fsWrite fs rawBlackFile ["RAW_YUV_320x240_BLACK"]
      if o.demoSegmentFfmpegFails then
        let fs2 := fsUnlink fs1 rawBlackFile
        let fs3 := fsWrite fs2 demoSegmentFile ["MINIMAL_VALID_TS"]
        Except.ok (if o.playlistWriteFails then fs3
                   else fsWrite fs3 playlistFile workingPlaylistLines)
      else
        let fs2 := fsWrite fs1 demoSegmentFile ["FFMPEG_DEMO_TS"]
        let fs3 := fsUnlink fs2 rawBlackFile
        Except.ok (if o.playlistWriteFails then fs3
                   else fsWrite fs3 playlistFile workingPlaylistLines)

/-- Function `createWorkingPlaylist(activeStreamCount)`: the `catch` falls back to
`createMinimalHlsPlaylist`.  The stream-count argument only feeds logging. -/
def createWorkingPlaylist (o : FallbackOracle) (fs : FS) (activeStreamCount : Nat) :
    Except String FS :=
  match createWorkingPlaylistBody o fs, activeStreamCount with
  | Except.ok fs1, _ => Except.ok fs1
  | Except.error _, _ => createMinimalHlsPlaylist o fs

def exceptOk : Except String FS → Bool
  | Except.ok _ => true
  | Except.error _ => false

def exceptFS : Except String FS → FS
  | Except.ok f => f
  | Except.error _ => []

/-- C5 is refuted at a concrete input: on an empty output directory, if the
primary path fails at the very first write (the raw black frame), the `catch`
falls back to `createMinimalHlsPlaylist`, which writes a playlist referencing
`demo-segment.ts` — a segment that does not exist in the resulting file
system.  The fallback playlist therefore does reference a missing segment. -/
theorem c5_counterexample :
    exceptOk (createWorkingPlaylist ⟨true, false, false, false⟩ [] 0) = true ∧
    exceptFS (createWorkingPlaylist ⟨true, false, false, false⟩ [] 0) =
      [("playlist.m3u8", minimalPlaylistLines)] ∧
    playlistSegmentRefs minimalPlaylistLines = ["demo-segment.ts"] ∧
    fsExists (exceptFS (createWorkingPlaylist ⟨true, false, false, false⟩ [] 0))
      "demo-segment.ts" = false := by
  refine ⟨by decide, by decide, by decide, by decide⟩

/-- C5 (amended): the fallback generation operations never propagate an error
to their caller — for every input state and every combination of internal
failures both `createWorkingPlaylist` and `createMinimalHlsPlaylist` return
normally — and when the primary path fails, the hard-coded minimal playlist
is written directly, depending on no external process (its outcome is a
function of its own single write only).  The minimal playlist, however,
references the fixed segment name `demo-segment.ts` whether or not that file
exists. -/
theorem c5_amended :
    (∀ (o : FallbackOracle) (fs : FS) (n : Nat),
        exceptOk (createWorkingPlaylist o fs n) = true) ∧
    (∀ (o : FallbackOracle) (fs : FS),
        exceptOk (createMinimalHlsPlaylist o fs) = true) ∧
    (∀ (o1 o2 : FallbackOracle) (fs : FS),
        o1.minimalPlaylistWriteFails = o2.minimalPlaylistWriteFails →
          createMinimalHlsPlaylist o1 fs = createMinimalHlsPlaylist o2 fs) := by
  refine ⟨?_, ?_, ?_⟩
  · intro o fs n
    unfold createWorkingPlaylist
    cases hb : createWorkingPlaylistBody o fs with
    | ok fs1 => simp [exceptOk]
    | error e =>
      unfold createMinimalHlsPlaylist
      cases hm : createMinimalHlsPlaylistBody o fs <;> simp [exceptOk]
  · intro o fs
    unfold createMinimalHlsPlaylist
    cases hm : createMinimalHlsPlaylistBody o fs <;> simp [exceptOk]
  · intro o1 o2 fs h
    unfold createMinimalHlsPlaylist createMinimalHlsPlaylistBody
    rw [h]

theorem c5_amended_witness :
    exceptOk (createWorkingPlaylist ⟨false, true, true, true⟩ [] 0) = true :=
  c5_amended.1 ⟨false, true, true, true⟩ [] 0

/-! ## Claim C10: `createMinimalValidTsFile` (lines 1820-1917)

The function allocates `Buffer.alloc(188 * 1000)` (zero-filled), writes a PAT
packet at packet index 0, a PMT packet at packet index 1, fills packets
2..999 with null packets, and writes the buffer to the given path.  The
buffer is embedded as a function from byte offset to byte value: the
zero-filled allocation is the constant-0 function, each `buffer[k] = v`
assignment is a `Function.update`, and each fill loop is a fold of updates
over the loop's index range, all in program order. -/

def tsPacketSize : Nat := 188

def tsPackets : Nat := 1000

/-- A `for`-loop `for (let i = start; i < start + len; i++) buffer[i] = v`. -/
def fillRange (b : Nat → Nat) (start len v : Nat) : Nat → Nat :=
  (List.range' start len).foldl (fun f i => Function.update f i v) b

/-- A straight-line sequence of `buffer[k] = v` assignments. -/
def writeBytes (b : Nat → Nat) (ws : List (Nat × Nat)) : Nat → Nat :=
  ws.foldl (fun f w => Function.update f w.1 w.2) b

theorem fillRange_succ (b : Nat → Nat) (start n v : Nat) :
    fillRange b start (n + 1) v = fillRange (Function.update b start v) (start + 1) n v := by
  unfold fillRange
  rw [List.range'_succ, List.foldl_cons]

theorem fillRange_of_not_mem (b : Nat → Nat) (start len v j : Nat) :
    j < start ∨ start + len ≤ j → fillRange b start len v j = b j := by
  induction len generalizing start b with
  | zero => intro _; rfl
  | succ n ih =>
    intro h
    rw [fillRange_succ, ih (Function.update b start v) (start + 1) (by omega),
      Function.update_noteq (by omega)]

theorem fillRange_of_mem (b : Nat → Nat) (start len v j : Nat) :
    start ≤ j → j < start + len → fillRange b start len v j = v := by
  induction len generalizing start b with
  | zero => intro h1 h2; omega
  | succ n ih =>
    intro h1 h2
    rw [fillRange_succ]
    by_cases hj : j = start
    · subst hj
      rw [fillRange_of_not_mem _ _ _ _ _ (Or.inl (by omega)), Function.update_same]
    · exact ih (Function.update b start v) (start + 1) (by omega) (by omega)

/-- One iteration of the null-packet loop (lines 1904-1913), for packet
index `i` (`offset = i * tsPacketSize`): sync byte `0x47`, PID bytes
`0x1F 0xFF` (the null PID `0x1FFF`), adaptation byte `0x10`, and `0xFF`
padding for the remaining 184 bytes. -/
def writeNullPacket (b : Nat → Nat) (i : Nat) : Nat → Nat :=
  fillRange
    (Function.update (Function.update (Function.update (Function.update b
      (i * tsPacketSize) 0x47) (i * tsPacketSize + 1) 0x1F)
      (i * tsPacketSize + 2) 0xFF) (i * tsPacketSize + 3) 0x10)
    (i * tsPacketSize + 4) 184 0xFF

/-- The byte pattern of a null packet at in-packet offset `r`. -/
def nullPacketByte (r : Nat) : Nat :=
  if r = 0 then 0x47 else if r = 1 then 0x1F else if r = 2 then 0xFF
  else if r = 3 then 0x10 else 0xFF

theorem writeNullPacket_of_not_mem (b : Nat → Nat) (i j : Nat)
    (h : j < i * 188 ∨ i * 188 + 188 ≤ j) : writeNullPacket b i j = b j := by
  unfold writeNullPacket tsPacketSize
  rw [fillRange_of_not_mem _ _ _ _ _ (by omega),
    Function.update_noteq (by omega), Function.update_noteq (by omega),
    Function.update_noteq (by omega), Function.update_noteq (by omega)]

theorem writeNullPacket_at (b : Nat → Nat) (i r : Nat) (hr : r < 188) :
    writeNullPacket b i (i * 188 + r) = nullPacketByte r := by
  unfold writeNullPacket tsPacketSize nullPacketByte
  by_cases h0 : r = 0
  · subst h0
    rw [fillRange_of_not_mem _ _ _ _ _ (Or.inl (by omega)),
      Function.update_noteq (by omega), Function.update_noteq (by omega),
      Function.update_noteq (by omega)]
    simp
  by_cases h1 : r = 1
  · subst h1
    rw [fillRange_of_not_mem _ _ _ _ _ (Or.inl (by omega)),
      Function.update_noteq (by omega), Function.update_noteq (by omega),
      Function.update_same]
    simp
  by_cases h2 : r = 2
  · subst h2
    rw [fillRange_of_not_mem _ _ _ _ _ (Or.inl (by omega)),
      Function.update_noteq (by omega), Function.update_same]
    simp
  by_cases h3 : r = 3
  · subst h3
    rw [fillRange_of_not_mem _ _ _ _ _ (Or.inl (by omega)), Function.update_same]
    simp
  · rw [fillRange_of_mem _ _ _ _ _ (by omega) (by omega)]
    simp [h0, h1, h2, h3]

theorem foldNull_of_lt (b : Nat → Nat) (a n j : Nat) :
    j < a * 188 → (List.range' a n).foldl writeNullPacket b j = b j := by
  induction n generalizing a b with
  | zero => intro _; rfl
  | succ m ih =>
    intro hj
    rw [List.range'_succ, List.foldl_cons,
      ih (writeNullPacket b a) (a + 1) (by omega),
      writeNullPacket_of_not_mem b a j (Or.inl (by omega))]

theorem foldNull_at (b : Nat → Nat) (a n i r : Nat) :
    a ≤ i → i < a + n → r < 188 →
    (List.range' a n).foldl writeNullPacket b (i * 188 + r) = nullPacketByte r := by
  induction n generalizing a b with
  | zero => intro h1 h2 _; omega
  | succ m ih =>
    intro h1 h2 hr
    rw [List.range'_succ, List.foldl_cons]
    by_cases hia : i = a
    · subst hia
      rw [foldNull_of_lt (writeNullPacket b i) (i + 1) m (i * 188 + r) (by omega)]
      exact writeNullPacket_at b i r hr
    · exact ih (writeNullPacket b a) (a + 1) (by omega) (by omega) hr

/-- The allocation `Buffer.alloc(tsPacketSize * packets)`: zero-filled. -/
def tsBufEmpty : Nat → Nat := fun _ => 0

/-- The PAT packet writes (lines 1829-1855), in program order.  Packet
header at offsets 0-3 (sync `0x47`, payload-unit-start with PID 0, payload
only), then the PAT section from `patStart = 4`: pointer, table id `0x00`,
section syntax/length, transport stream id 1, version, section numbers,
program 1 mapped to PMT PID `0x100` (`0xE1 0x00`), CRC32 placeholder. -/
def patWrites : List (Nat × Nat) :=
  [(0, 0x47), (1, 0x40), (2, 0x00), (3, 0x10),
   (4, 0x00), (5, 0x00), (6, 0xB0), (7, 0x0D), (8, 0x00), (9, 0x01),
   (10, 0xC1), (11, 0x00), (12, 0x00), (13, 0x00), (14, 0x01), (15, 0xE1),
   (16, 0x00), (17, 0x00), (18, 0x00), (19, 0x00), (20, 0x00)]

/-- The PMT packet writes (lines 1862-1896): header at offsets 188-191
(sync, payload-unit-start with PID `0x100`, payload only), then the PMT
section from `pmtStart = 192`: pointer, table id `0x02`, section
syntax/length, program 1, version, section numbers, PCR PID, program info
length, one elementary stream of type `0x1B` (H.264) on PID `0x100`, ES info
length, CRC32 placeholder. -/
def pmtWrites : List (Nat × Nat) :=
  [(188, 0x47), (189, 0x41), (190, 0x00), (191, 0x10),
   (192, 0x00), (193, 0x02), (194, 0xB0), (195, 0x17), (196, 0x00), (197, 0x01),
   (198, 0xC1), (199, 0x00), (200, 0x00), (201, 0xE1), (202, 0x00), (203, 0xF0),
   (204, 0x00), (205, 0x1B), (206, 0xE1), (207, 0x00), (208, 0xF0), (209, 0x00),
   (210, 0x00), (211, 0x00), (212, 0x00), (213, 0x00)]

/-- Buffer contents after the PAT packet: the scalar writes followed by the
`0xFF` fill of offsets `patStart + 17` to 187 (lines 1857-1860). -/
def tsAfterPat : Nat → Nat :=
  fillRange (writeBytes tsBufEmpty patWrites) 21 167 0xFF

/-- Buffer contents after the PMT packet: the scalar writes followed by the
`0xFF` fill of offsets `pmtStart + 22` to 375 (lines 1898-1901). -/
def tsAfterPmt : Nat → Nat :=
  fillRange (writeBytes tsAfterPat pmtWrites) 214 162 0xFF

/-- The final buffer: null packets written at packet indices 2..999
(lines 1904-1913). -/
def createMinimalValidTsBytes : Nat → Nat :=
  (List.range' 2 998).foldl writeNullPacket tsAfterPmt

/-- The size `tsPacketSize * packets` of `Buffer.alloc` — the byte count of the file
written by `fs.writeFileSync(filePath, buffer)`. -/
def createMinimalValidTsSize : Nat := tsPacketSize * tsPackets

/-- Function `createMinimalValidTsFile(filePath)` writes the same (size, contents)
pair whatever the path argument is. -/
def createMinimalValidTsFile (_filePath : String) : (Nat → Nat) × Nat :=
  (createMinimalValidTsBytes, createMinimalValidTsSize)

/-- The 13-bit MPEG-TS packet id encoded in header bytes 1-2: the low 5 bits
of byte 1 followed by byte 2. -/
def tsPid (b : Nat → Nat) (off : Nat) : Nat :=
  (b (off + 1) % 32) * 256 + b (off + 2)

theorem tsBytes_low (j : Nat) (h : j < 376) :
    createMinimalValidTsBytes j = tsAfterPmt j :=
  foldNull_of_lt tsAfterPmt 2 998 j (by omega)

theorem tsPid_def (b : Nat → Nat) (off : Nat) :
    tsPid b off = (b (off + 1) % 32) * 256 + b (off + 2) := rfl

theorem createMinimalValidTsBytes_def :
    createMinimalValidTsBytes = (List.range' 2 998).foldl writeNullPacket tsAfterPmt := rfl

/-- C10: the last-resort segment writer produces, for any file path, exactly
188000 bytes = 1000 packets of 188 bytes; every packet starts with the sync
byte `0x47`; packet 0 is a PAT on PID 0 (table id `0x00`); packet 1 is a PMT
(PID `0x100`, table id `0x02`) declaring an H.264 elementary stream (stream
type `0x1B`); and every packet from index 2 on is a null packet: PID
`0x1FFF`, with its whole payload padded with `0xFF`. -/
theorem c10_minimal_ts_file :
    createMinimalValidTsSize = 188000 ∧
    createMinimalValidTsSize = 1000 * 188 ∧
    (∀ i : Nat, i < 1000 → createMinimalValidTsBytes (i * 188) = 0x47) ∧
    (tsPid createMinimalValidTsBytes 0 = 0 ∧ createMinimalValidTsBytes 5 = 0x00) ∧
    (tsPid createMinimalValidTsBytes 188 = 0x100 ∧
      createMinimalValidTsBytes 193 = 0x02 ∧
      createMinimalValidTsBytes 205 = 0x1B) ∧
    (∀ i : Nat, 2 ≤ i → i < 1000 →
        tsPid createMinimalValidTsBytes (i * 188) = 0x1FFF ∧
        ∀ r : Nat, 4 ≤ r → r < 188 →
          createMinimalValidTsBytes (i * 188 + r) = 0xFF) ∧
    (∀ p q : String, createMinimalValidTsFile p = createMinimalValidTsFile q) := by
  refine ⟨by decide, by decide, ?_, ?_, ?_, ?_, fun p q => rfl⟩
  · intro i hi
    match i, hi with
    | 0, _ =>
      rw [show (0 * 188 : Nat) = 0 by omega, tsBytes_low 0 (by omega)]
      decide
    | 1, _ =>
      rw [show (1 * 188 : Nat) = 188 by omega, tsBytes_low 188 (by omega)]
      decide
    | (i2 + 2), hi =>
      have h := foldNull_at tsAfterPmt 2 998 (i2 + 2) 0 (by omega) (by omega) (by omega)
      unfold createMinimalValidTsBytes
      rw [show (i2 + 2) * 188 = (i2 + 2) * 188 + 0 by omega, h]
      decide
  · constructor
    · have h1 : createMinimalValidTsBytes 1 = 0x40 := by
        rw [tsBytes_low 1 (by omega)]
        decide
      have h2 : createMinimalValidTsBytes 2 = 0x00 := by
        rw [tsBytes_low 2 (by omega)]
        decide
      rw [tsPid_def, show (0 + 1 : Nat) = 1 by decide, show (0 + 2 : Nat) = 2 by decide,
        h1, h2]
    · rw [tsBytes_low 5 (by omega)]
      decide
  · refine ⟨?_, ?_, ?_⟩
    · have h1 : createMinimalValidTsBytes 189 = 0x41 := by
        rw [tsBytes_low 189 (by omega)]
        decide
      have h2 : createMinimalValidTsBytes 190 = 0x00 := by
        rw [tsBytes_low 190 (by omega)]
        decide
      rw [tsPid_def, show (188 + 1 : Nat) = 189 by decide,
        show (188 + 2 : Nat) = 190 by decide, h1, h2]
    · rw [tsBytes_low 193 (by omega)]
      decide
    · rw [tsBytes_low 205 (by omega)]
      decide
  · intro i h2 hi
    constructor
    · have ha := foldNull_at tsAfterPmt 2 998 i 1 (by omega) (by omega) (by omega)
      have hb := foldNull_at tsAfterPmt 2 998 i 2 (by omega) (by omega) (by omega)
      rw [tsPid_def, createMinimalValidTsBytes_def, ha, hb]
      decide
    · intro r h4 hr
      have h := foldNull_at tsAfterPmt 2 998 i r (by omega) (by omega) hr
      rw [createMinimalValidTsBytes_def, h]
      unfold nullPacketByte
      rw [if_neg (by omega), if_neg (by omega), if_neg (by omega), if_neg (by omega)]

theorem c10_minimal_ts_file_witness :
    createMinimalValidTsBytes (7 * 188) = 0x47 ∧
    (tsPid createMinimalValidTsBytes (7 * 188) = 0x1FFF ∧
      ∀ r : Nat, 4 ≤ r → r < 188 →
        createMinimalValidTsBytes (7 * 188 + r) = 0xFF) :=
  ⟨c10_minimal_ts_file.2.2.1 7 (by decide),
   c10_minimal_ts_file.2.2.2.2.2.1 7 (by decide) (by decide)⟩

end LiveStream
